import Mathlib

/-!
Shallow embedding of the subprocess streaming aggregator of `gemini-mcp-rs`
(`src/gemini.rs` and `src/server.rs`), together with theorems settling the
specification claims about it.

JSON values (`serde_json::Value`) are modelled by the inductive `Json`;
the outcome of `serde_json::from_str` on a stdout line is treated as an
oracle input (an `Option Json` paired with the raw line), since the JSON
parser is an external library, not code of this repository.
-/

namespace GeminiMcp

/-- Model of `serde_json::Value`: null, booleans, numbers, strings, arrays
and objects.  Objects are association lists with distinct keys (serde's map
has unique keys); numbers are collapsed to `Int` since no claim inspects
numeric values. -/
inductive Json where
  | null : Json
  | bool (b : Bool) : Json
  | num (n : Int) : Json
  | str (s : String) : Json
  | arr (elems : List Json) : Json
  | obj (fields : List (String × Json)) : Json

/-- First binding of a key in an association list (serde maps have unique
keys, so first = only). -/
def lookupField (key : String) : List (String × Json) → Option Json
  | [] => none
  | (k, v) :: rest => if k = key then some v else lookupField key rest

/-- Model of `Value::get(key)`: `Some` only on objects holding the key. -/
def Json.get (v : Json) (key : String) : Option Json :=
  match v with
  | .obj fields => lookupField key fields
  | _ => none

/-- Model of `Value::as_str`. -/
def Json.asStr : Json → Option String
  | .str s => some s
  | _ => none

/-- Model of `Value::as_object` (the field list of the map). -/
def Json.asObj : Json → Option (List (String × Json))
  | .obj fields => some fields
  | _ => none

/-- `opt.and_then(|v| v.as_str())` on an optional JSON value. -/
def jstr (o : Option Json) : Option String :=
  o.bind Json.asStr

-- Constants from the top of `src/gemini.rs`.

def PROMPT_DEPRECATION_WARNING : String := "The --prompt (-p) flag has been deprecated"
def KEY_SESSION_ID : String := "session_id"
def KEY_TYPE : String := "type"
def KEY_ROLE : String := "role"
def KEY_CONTENT : String := "content"
def KEY_ERROR : String := "error"
def KEY_MESSAGE : String := "message"
def TYPE_MESSAGE : String := "message"
def ROLE_ASSISTANT : String := "assistant"
def DEFAULT_TIMEOUT_SECS : Nat := 600
def MIN_TIMEOUT_SECS : Nat := 1
def MAX_TIMEOUT_SECS : Nat := 3600
def MAX_MESSAGES_LIMIT : Nat := 10000
def MAX_NON_JSON_LINES : Nat := 1000
def MAX_STDERR_BYTES : Nat := 100000

/-- `is_empty()` on a Rust `&str`/`String` (true iff the string has no bytes). -/
def strIsEmpty (s : String) : Bool := s = ""

/-- `to_lowercase()` on a Rust string, modelled character-wise (the claims
only exercise ASCII discriminators). -/
def strToLower (s : String) : String := String.mk (s.data.map Char.toLower)

/-- Whitespace test used by Rust `str::trim` (ASCII fragment of the
Unicode White_Space property, matching the characters the claims use). -/
def isWsChar (c : Char) : Bool := c == ' ' || c == '\t' || c == '\n' || c == '\r'

/-- Rust `str::trim`: strip whitespace from both ends. -/
def strTrim (s : String) : String :=
  String.mk (((s.data.dropWhile isWsChar).reverse.dropWhile isWsChar).reverse)

/-- Contiguous-substring test on character lists: true iff `needle` occurs
as a contiguous run inside the second list. -/
def listContains (needle : List Char) : List Char → Bool
  | [] => needle.isEmpty
  | c :: rest => needle.isPrefixOf (c :: rest) || listContains needle rest

/-- `haystack.contains(needle)` on Rust strings, modelled on the character
lists. -/
def containsSub (haystack needle : String) : Bool :=
  listContains needle.toList haystack.toList

/-- Model of `GeminiResult` (`src/gemini.rs`). -/
structure GeminiResult where
  success : Bool
  session_id : String
  agent_messages : String
  all_messages : List Json
  return_all_messages : Bool
  error : Option String

/-- `item_type.to_lowercase().contains("fail") || …contains("error")`
(`src/gemini.rs` lines 94-95). -/
def has_explicit_error (item_type : String) : Bool :=
  containsSub (strToLower item_type) "fail" || containsSub (strToLower item_type) "error"

/-- `line_data.get(KEY_ERROR).is_some()` (`src/gemini.rs` line 96). -/
def has_error_obj (line_data : Json) : Bool :=
  (line_data.get KEY_ERROR).isSome

/-- The `item_type` local of `process_json_line` (`src/gemini.rs` lines
71-74). -/
def itemTypeOf (line_data : Json) : String :=
  (jstr (line_data.get KEY_TYPE)).getD ""

/-- The `item_role` local of `process_json_line` (`src/gemini.rs` lines
75-78). -/
def itemRoleOf (line_data : Json) : String :=
  (jstr (line_data.get KEY_ROLE)).getD ""

/-- Error-detection tail of `process_json_line` (`src/gemini.rs` lines
93-107): case-insensitive "fail"/"error" substring check on the
discriminator, explicit `error` key check, and error-description
extraction. -/
def check_errors (line_data : Json) (item_type : String) (result : GeminiResult) :
    GeminiResult :=
  if has_explicit_error item_type || has_error_obj line_data then
    let result := { result with success := false }
    match (line_data.get KEY_ERROR).bind Json.asObj with
    | some error_obj =>
      match jstr (lookupField KEY_MESSAGE error_obj) with
      | some msg => { result with error := some ("gemini error: " ++ msg) }
      | none => result
    | none =>
      match jstr (line_data.get KEY_MESSAGE) with
      | some msg => { result with error := some ("gemini error: " ++ msg) }
      | none => result
  else result

/-- Capture step of `process_json_line` (`src/gemini.rs` lines 59-61):
store the raw event when requested and under the cap. -/
def captureStep (line_data : Json) (return_all_messages : Bool)
    (result : GeminiResult) : GeminiResult :=
  if return_all_messages && decide (result.all_messages.length < MAX_MESSAGES_LIMIT) then
    { result with all_messages := result.all_messages ++ [line_data] }
  else result

/-- Session-id extraction step of `process_json_line` (`src/gemini.rs`
lines 63-68): a non-empty session-identifier string overwrites the state. -/
def sessionStep (line_data : Json) (result : GeminiResult) : GeminiResult :=
  match jstr (line_data.get KEY_SESSION_ID) with
  | some session_id =>
    if strIsEmpty session_id then result
    else { result with session_id := session_id }
  | none => result

/-- Content append of `process_json_line` (`src/gemini.rs` lines 86-89):
newline separator before any appended text that is not the first. -/
def appendContent (content : String) (result : GeminiResult) : GeminiResult :=
  if strIsEmpty result.agent_messages then
    { result with agent_messages := result.agent_messages ++ content }
  else
    { result with agent_messages := result.agent_messages ++ "\n" ++ content }

/-- Model of `process_json_line` (`src/gemini.rs` lines 56-108).  Mirrors
the source order: capture, session-id extraction, assistant-content
handling (with the early `return` on the deprecation warning), then error
detection. -/
def process_json_line (line_data : Json) (result : GeminiResult)
    (return_all_messages : Bool) : GeminiResult :=
  let result := captureStep line_data return_all_messages result
  let result := sessionStep line_data result
  let item_type := itemTypeOf line_data
  let item_role := itemRoleOf line_data
  if item_type = TYPE_MESSAGE ∧ item_role = ROLE_ASSISTANT then
    match jstr (line_data.get KEY_CONTENT) with
    | some content =>
      if content = PROMPT_DEPRECATION_WARNING then
        result
      else
        check_errors line_data item_type (appendContent content result)
    | none => check_errors line_data item_type result
  else check_errors line_data item_type result

/-- The validation-error list built by `enforce_required_fields`
(`src/gemini.rs` lines 315-329), in source push order. -/
def validation_errors (result : GeminiResult) : List String :=
  (if strIsEmpty result.session_id then
    ["Failed to get `SESSION_ID` from the gemini session."]
  else [])
  ++
  (if strIsEmpty result.agent_messages && !result.return_all_messages then
    ["Failed to get `agent_messages` from the gemini session.\nYou can try to set `return_all_messages` to `True` to get the full information."]
  else if strIsEmpty result.agent_messages && result.return_all_messages
      && result.all_messages.isEmpty then
    ["Failed to get any messages from the gemini session."]
  else [])

/-- Model of `enforce_required_fields` (`src/gemini.rs` lines 314-342):
the Result Validator.  Builds the validation-error list in source order,
then forces failure and folds the newline-joined errors into the error
field, appended after any non-empty pre-existing error text. -/
def enforce_required_fields (result : GeminiResult) : GeminiResult :=
  let errors : List String := validation_errors result
  if errors.isEmpty then result
  else
    let new_error := String.intercalate "\n" errors
    let result := { result with success := false }
    match result.error with
    | some prev =>
      if strIsEmpty prev then { result with error := some new_error }
      else { result with error := some (prev ++ "\n" ++ new_error) }
    | none => { result with error := some new_error }

/-! ### The concurrent drain loop of `run_with_child`, stdout side

The stdout side of the `tokio::select!` loop (`src/gemini.rs` lines
216-245) processes one line at a time: trim, skip blank, attempt JSON
decode, feed decoded events to `process_json_line`, collect non-JSON
lines up to the cap.  A stdout line is modelled together with the outcome
of `serde_json::from_str` on its trimmed text (`Option Json`), since the
parser is an external library. -/

/-- Supervisor state accumulated while draining stdout. -/
structure DrainState where
  result : GeminiResult
  non_json_lines : List String
  valid_json_seen : Bool

/-- One iteration of the stdout branch of the drain loop (`src/gemini.rs`
lines 216-245). `decoded` is the outcome of `serde_json::from_str` on the
trimmed line. -/
def processStdoutLine (return_all_messages : Bool) (st : DrainState)
    (line : String) (decoded : Option Json) : DrainState :=
  let trimmed := strTrim line
  if strIsEmpty trimmed then st
  else
    match decoded with
    | some line_data =>
      { st with
        valid_json_seen := true
        result := process_json_line line_data st.result return_all_messages }
    | none =>
      if st.non_json_lines.length < MAX_NON_JSON_LINES then
        { st with non_json_lines := st.non_json_lines ++ [trimmed] }
      else st

/-- The stdout drain over a whole run: fold of `processStdoutLine` over
the sequence of (raw line, decode outcome) pairs. -/
def drainStdout (return_all_messages : Bool) (st : DrainState)
    (lines : List (String × Option Json)) : DrainState :=
  lines.foldl (fun st p => processStdoutLine return_all_messages st p.1 p.2) st

/-- Rust `format!("{:?}", status.code())` on an `Option<i32>`. -/
def fmtExitCode : Option Int → String
  | some c => "Some(" ++ toString c ++ ")"
  | none => "None"

/-- Exit-status handling of `run_with_child` (`src/gemini.rs` lines
281-309), run after both streams close: non-zero exit composes a failure
message from prior error text, stderr and non-JSON lines; a clean exit
with non-JSON output but no valid JSON is also a failure. -/
def finishRun (st : DrainState) (exit_success : Bool) (exit_code : Option Int)
    (stderr_output : String) : GeminiResult :=
  let result := st.result
  if !exit_success then
    let result := { result with success := false }
    let error_msg :=
      match result.error with
      | some err => err
      | none => "gemini command failed with exit code: " ++ fmtExitCode exit_code
    let full_error :=
      if strIsEmpty stderr_output then error_msg
      else error_msg ++ "\nStderr: " ++ stderr_output
    let full_error :=
      if st.non_json_lines.isEmpty then full_error
      else full_error ++ "\nNon-JSON output: " ++ String.intercalate "\n" st.non_json_lines
    { result with error := some full_error }
  else if !st.non_json_lines.isEmpty && !st.valid_json_seen then
    { result with
      success := false
      error := some ("No valid JSON output received from gemini CLI.\nOutput: "
        ++ String.intercalate "\n" st.non_json_lines) }
  else result

/-- The fresh `GeminiResult` built at the top of `run_with_child`
(`src/gemini.rs` lines 196-203). -/
def initResult (return_all_messages : Bool) : GeminiResult :=
  { success := true
    session_id := ""
    agent_messages := ""
    all_messages := []
    return_all_messages := return_all_messages
    error := none }

/-- The initial drain-loop state of `run_with_child`. -/
def initDrain (return_all_messages : Bool) : DrainState :=
  { result := initResult return_all_messages
    non_json_lines := []
    valid_json_seen := false }

/-- End-to-end model of `run_with_child` after a successful spawn: drain
stdout, apply the exit-status handling, then the Result Validator. -/
def runWithChildModel (lines : List (String × Option Json))
    (return_all_messages : Bool) (exit_success : Bool) (exit_code : Option Int)
    (stderr_output : String) : GeminiResult :=
  enforce_required_fields
    (finishRun (drainStdout return_all_messages (initDrain return_all_messages) lines)
      exit_success exit_code stderr_output)

/-! ### Request validation in `run` and the server handler -/

/-- Model of `Options` (`src/gemini.rs`). -/
structure Options where
  prompt : String
  sandbox : Bool
  session_id : Option String
  return_all_messages : Bool
  model : Option String
  timeout_secs : Option Nat

/-- Outcome of the validation gate at the top of `run` (`src/gemini.rs`
lines 142-166): either a validation error, or the spawn proceeds with the
resolved timeout. -/
inductive RunGate where
  | promptInvalid : RunGate
  | timeoutInvalid : RunGate
  | spawn (timeout_secs : Nat) : RunGate
deriving DecidableEq

/-- Validation gate of `run` (`src/gemini.rs` lines 142-166): empty
trimmed prompt is rejected first, then an out-of-range `timeout_secs`;
otherwise the command is spawned with the resolved timeout
(`default_timeout` models `get_default_timeout()`). -/
def run_gate (opts : Options) (default_timeout : Nat) : RunGate :=
  if strIsEmpty (strTrim opts.prompt) then .promptInvalid
  else
    match opts.timeout_secs with
    | some t =>
      if !(MIN_TIMEOUT_SECS ≤ t && t ≤ MAX_TIMEOUT_SECS) then .timeoutInvalid
      else .spawn t
    | none => .spawn default_timeout

/-- Model of `GeminiArgs` (`src/server.rs`): the deserialized tool-call
parameters. -/
structure GeminiArgs where
  prompt : String
  sandbox : Bool
  session_id : Option String
  return_all_messages : Bool
  model : Option String
  timeout_secs : Option Nat

/-- `args.session_id.filter(|s| !s.is_empty())` (`src/server.rs` line 107). -/
def filterNonEmpty : Option String → Option String
  | some s => if strIsEmpty s then none else some s
  | none => none

/-- `args.model.filter(|m| !m.trim().is_empty())` (`src/server.rs` line 110). -/
def filterNonBlank : Option String → Option String
  | some m => if strIsEmpty (strTrim m) then none else some m
  | none => none

/-- Option construction in the server handler (`src/server.rs` lines
106-120): empty session id and blank model are converted to `None` before
the `Options` are built. -/
def server_build_opts (args : GeminiArgs) : Options :=
  { prompt := args.prompt
    sandbox := args.sandbox
    session_id := filterNonEmpty args.session_id
    return_all_messages := args.return_all_messages
    model := filterNonBlank args.model
    timeout_secs := args.timeout_secs }

/-- The `--resume` argument pair of `build_command` (`src/gemini.rs`
lines 129-131). -/
def resumeArgs (opts : Options) : List String :=
  match opts.session_id with
  | some session_id => ["--resume", session_id]
  | none => []

/-- Argument vector built by `build_command` (`src/gemini.rs` lines
111-139), in source order. -/
def build_command_args (opts : Options) : List String :=
  ["--prompt", opts.prompt, "-o", "stream-json"]
  ++ (if opts.sandbox then ["--sandbox"] else [])
  ++ (match opts.model with
      | some model => ["--model", model]
      | none => [])
  ++ resumeArgs opts

/-! ### The stderr branch of the drain loop

The stderr branch (`src/gemini.rs` lines 247-270) accumulates lines into
a byte-capped buffer; when a line would overflow the cap it is cut at a
byte index.  Rust strings are UTF-8: `&line[..remaining]` panics when
`remaining` is not a character boundary, so the model of the slice
returns `none` exactly in the Rust-panic case. -/

/-- Byte length of one character in UTF-8 (Rust `char::len_utf8`). -/
def lenUtf8 (c : Char) : Nat :=
  if c.val < 0x80 then 1
  else if c.val < 0x800 then 2
  else if c.val < 0x10000 then 3
  else 4

/-- Byte length of a Rust string modelled as its character list
(`str::len`). -/
def ulen (cs : List Char) : Nat :=
  (cs.map lenUtf8).sum

/-- Rust `&line[..n]`: the prefix of `line` holding exactly `n` bytes, or
`none` when byte index `n` falls inside a character (the case where Rust
panics with "byte index is not a char boundary"). -/
def takeBytes : List Char → Nat → Option (List Char)
  | _, 0 => some []
  | [], _ + 1 => none
  | c :: cs, n + 1 =>
    if lenUtf8 c ≤ n + 1 then (takeBytes cs (n + 1 - lenUtf8 c)).map (c :: ·)
    else none

/-- The capped stderr buffer of `run_with_child`. -/
structure StderrBuf where
  out : List Char
  truncated : Bool

/-- The truncation marker appended when the stderr cap is hit. -/
def TRUNC_MARKER : List Char := "\n... (stderr truncated)".toList

/-- One iteration of the stderr branch (`src/gemini.rs` lines 249-263):
`none` models a Rust panic on the byte slice. -/
def stderrStep (st : StderrBuf) (line : List Char) : Option StderrBuf :=
  if ulen st.out < MAX_STDERR_BYTES && !st.truncated then
    let out := if st.out.isEmpty then st.out else st.out ++ ['\n']
    let remaining := MAX_STDERR_BYTES - ulen out
    if ulen line ≤ remaining then
      some { out := out ++ line, truncated := st.truncated }
    else
      match takeBytes line remaining with
      | some sliced =>
        some { out := out ++ sliced ++ TRUNC_MARKER, truncated := true }
      | none => none
  else some st

/-- The stderr drain over a whole run; `none` models a panic on some
line. -/
def drainStderr (st : StderrBuf) : List (List Char) → Option StderrBuf
  | [] => some st
  | l :: ls =>
    match stderrStep st l with
    | some st' => drainStderr st' ls
    | none => none

/-- The empty stderr buffer at the start of `run_with_child`. -/
def initStderr : StderrBuf := { out := [], truncated := false }

/-- The condition under which `process_json_line` returns early
(`src/gemini.rs` lines 83-85): an assistant message whose content is
exactly the deprecation warning. -/
def deprecationSkipped (line_data : Json) : Prop :=
  itemTypeOf line_data = TYPE_MESSAGE ∧ itemRoleOf line_data = ROLE_ASSISTANT ∧
    jstr (line_data.get KEY_CONTENT) = some PROMPT_DEPRECATION_WARNING

instance (line_data : Json) : Decidable (deprecationSkipped line_data) :=
  inferInstanceAs (Decidable (_ ∧ _ ∧ _))

/-! ### Helper lemmas about the Event Interpreter -/

theorem check_errors_eq_of_not_error (ld : Json) (t : String) (r : GeminiResult)
    (h : (has_explicit_error t || has_error_obj ld) = false) :
    check_errors ld t r = r := by
  unfold check_errors
  simp [h]

theorem check_errors_success_of_error (ld : Json) (t : String) (r : GeminiResult)
    (h : (has_explicit_error t || has_error_obj ld) = true) :
    (check_errors ld t r).success = false := by
  unfold check_errors
  simp only [h, if_true]
  split <;> split <;> rfl

theorem check_errors_error_of_error (ld : Json) (t : String) (r : GeminiResult)
    (h : (has_explicit_error t || has_error_obj ld) = true) :
    (check_errors ld t r).error =
      match (ld.get KEY_ERROR).bind Json.asObj with
      | some error_obj =>
        (match jstr (lookupField KEY_MESSAGE error_obj) with
         | some msg => some ("gemini error: " ++ msg)
         | none => r.error)
      | none =>
        (match jstr (ld.get KEY_MESSAGE) with
         | some msg => some ("gemini error: " ++ msg)
         | none => r.error) := by
  unfold check_errors
  simp only [h, if_true]
  split <;> split <;> rfl

theorem check_errors_session_id (ld : Json) (t : String) (r : GeminiResult) :
    (check_errors ld t r).session_id = r.session_id := by
  unfold check_errors
  split
  · split <;> split <;> rfl
  · rfl

theorem check_errors_agent_messages (ld : Json) (t : String) (r : GeminiResult) :
    (check_errors ld t r).agent_messages = r.agent_messages := by
  unfold check_errors
  split
  · split <;> split <;> rfl
  · rfl

theorem check_errors_success_mono (ld : Json) (t : String) (r : GeminiResult)
    (h : r.success = false) : (check_errors ld t r).success = false := by
  unfold check_errors
  split
  · split <;> split <;> rfl
  · exact h

theorem check_errors_error_keeps (ld : Json) (t : String) (r : GeminiResult) :
    (check_errors ld t r).error = r.error ∨
      ∃ msg, (check_errors ld t r).error = some ("gemini error: " ++ msg) := by
  unfold check_errors
  split
  · split
    · split
      · exact Or.inr ⟨_, rfl⟩
      · exact Or.inl rfl
    · split
      · exact Or.inr ⟨_, rfl⟩
      · exact Or.inl rfl
  · exact Or.inl rfl

theorem captureStep_success (ld : Json) (rall : Bool) (r : GeminiResult) :
    (captureStep ld rall r).success = r.success := by
  unfold captureStep; split <;> rfl

theorem captureStep_session_id (ld : Json) (rall : Bool) (r : GeminiResult) :
    (captureStep ld rall r).session_id = r.session_id := by
  unfold captureStep; split <;> rfl

theorem captureStep_agent_messages (ld : Json) (rall : Bool) (r : GeminiResult) :
    (captureStep ld rall r).agent_messages = r.agent_messages := by
  unfold captureStep; split <;> rfl

theorem captureStep_error (ld : Json) (rall : Bool) (r : GeminiResult) :
    (captureStep ld rall r).error = r.error := by
  unfold captureStep; split <;> rfl

theorem sessionStep_success (ld : Json) (r : GeminiResult) :
    (sessionStep ld r).success = r.success := by
  unfold sessionStep; split
  · split <;> rfl
  · rfl

theorem sessionStep_agent_messages (ld : Json) (r : GeminiResult) :
    (sessionStep ld r).agent_messages = r.agent_messages := by
  unfold sessionStep; split
  · split <;> rfl
  · rfl

theorem sessionStep_error (ld : Json) (r : GeminiResult) :
    (sessionStep ld r).error = r.error := by
  unfold sessionStep; split
  · split <;> rfl
  · rfl

/-- The session identifier an event contributes: its `session_id` value
when that is a non-empty string, nothing otherwise. -/
def extractSid (line_data : Json) : Option String :=
  match jstr (line_data.get KEY_SESSION_ID) with
  | some session_id => if strIsEmpty session_id then none else some session_id
  | none => none

theorem sessionStep_session_id (ld : Json) (r : GeminiResult) :
    (sessionStep ld r).session_id = (extractSid ld).getD r.session_id := by
  unfold sessionStep extractSid
  split
  · split <;> rfl
  · rfl

theorem appendContent_success (c : String) (r : GeminiResult) :
    (appendContent c r).success = r.success := by
  unfold appendContent; split <;> rfl

theorem appendContent_session_id (c : String) (r : GeminiResult) :
    (appendContent c r).session_id = r.session_id := by
  unfold appendContent; split <;> rfl

theorem appendContent_error (c : String) (r : GeminiResult) :
    (appendContent c r).error = r.error := by
  unfold appendContent; split <;> rfl

theorem appendContent_agent_messages (c : String) (r : GeminiResult) :
    (appendContent c r).agent_messages =
      if strIsEmpty r.agent_messages then r.agent_messages ++ c
      else r.agent_messages ++ "\n" ++ c := by
  unfold appendContent; split <;> simp_all

/-- C1 scenario event: an assistant message whose content is exactly the
deprecation warning and which also carries an explicit `error` object. -/
def depErrorEvent : Json :=
  .obj [("type", .str "message"), ("role", .str "assistant"),
    ("content", .str "The --prompt (-p) flag has been deprecated"),
    ("error", .obj [("message", .str "boom")])]

/-- C1 falls: on an assistant message whose content is the deprecation
notice and which also carries an `error` object, the interpreter leaves
`success = true` — error detection is NOT applied, contrary to the
claim. -/
theorem C1_counterexample :
    (process_json_line depErrorEvent (initResult false) false).success = true ∧
    (process_json_line depErrorEvent (initResult false) false).error = none :=
  ⟨rfl, rfl⟩

/-- C1 (amended): the deprecation-notice skip returns early from the
interpreter, so error detection is not applied to that event: for every
event whose discriminator is "message", role "assistant", and content
exactly the deprecation-notice string, the interpreter leaves `success`,
the assistant-text accumulator, and the error description unchanged,
whatever error indicators the event carries. -/
theorem C1_amended (ev : Json) (r : GeminiResult) (rall : Bool)
    (htype : itemTypeOf ev = TYPE_MESSAGE)
    (hrole : itemRoleOf ev = ROLE_ASSISTANT)
    (hcontent : jstr (ev.get KEY_CONTENT) = some PROMPT_DEPRECATION_WARNING) :
    (process_json_line ev r rall).success = r.success ∧
    (process_json_line ev r rall).agent_messages = r.agent_messages ∧
    (process_json_line ev r rall).error = r.error := by
  unfold process_json_line
  simp only [htype, hrole, hcontent, and_self, if_true, ite_true, if_pos]
  refine ⟨?_, ?_, ?_⟩
  · rw [sessionStep_success, captureStep_success]
  · rw [sessionStep_agent_messages, captureStep_agent_messages]
  · rw [sessionStep_error, captureStep_error]

/-- Witness for `C1_amended` at the concrete C1 scenario event. -/
theorem C1_amended_witness :
    (process_json_line depErrorEvent (initResult true) true).success =
        (initResult true).success ∧
    (process_json_line depErrorEvent (initResult true) true).agent_messages =
        (initResult true).agent_messages ∧
    (process_json_line depErrorEvent (initResult true) true).error =
        (initResult true).error :=
  C1_amended depErrorEvent (initResult true) true rfl rfl rfl

/-- C2 scenario event: an `error` object without a `message` field,
alongside a top-level `message` string. -/
def errObjNoMsgEvent : Json :=
  .obj [("error", .obj []), ("message", .str "top")]

/-- C2 falls: on an event whose `error` value is an object without a
string `message` field, the code does NOT fall back to the top-level
`message` field — the error description stays unset (`none`), contrary to
the claim, although the result is marked failed. -/
theorem C2_counterexample :
    (process_json_line errObjNoMsgEvent (initResult false) false).success = false ∧
    (process_json_line errObjNoMsgEvent (initResult false) false).error = none := by
  exact ⟨by decide, by decide⟩

/-- C2 (amended): for every error-bearing event that is not skipped as
the deprecation notice, the result is marked failed and the error
description is set from the `error` object's string `message` field when
the `error` value is an object; the fallback to the top-level `message`
string happens only when the `error` key is absent or holds a non-object;
when an `error` object is present but has no string `message` field the
description is left unchanged. -/
theorem C2_amended (ev : Json) (r : GeminiResult) (rall : Bool)
    (herr : (has_explicit_error (itemTypeOf ev) || has_error_obj ev) = true)
    (hskip : ¬ deprecationSkipped ev) :
    (process_json_line ev r rall).success = false ∧
    (process_json_line ev r rall).error =
      (match (ev.get KEY_ERROR).bind Json.asObj with
       | some error_obj =>
         (match jstr (lookupField KEY_MESSAGE error_obj) with
          | some msg => some ("gemini error: " ++ msg)
          | none => r.error)
       | none =>
         (match jstr (ev.get KEY_MESSAGE) with
          | some msg => some ("gemini error: " ++ msg)
          | none => r.error)) := by
  have hres : ∀ r' : GeminiResult, r'.error = r.error →
      (check_errors ev (itemTypeOf ev) r').success = false ∧
      (check_errors ev (itemTypeOf ev) r').error =
        (match (ev.get KEY_ERROR).bind Json.asObj with
         | some error_obj =>
           (match jstr (lookupField KEY_MESSAGE error_obj) with
            | some msg => some ("gemini error: " ++ msg)
            | none => r.error)
         | none =>
           (match jstr (ev.get KEY_MESSAGE) with
            | some msg => some ("gemini error: " ++ msg)
            | none => r.error)) := by
    intro r' hr'
    refine ⟨check_errors_success_of_error _ _ _ herr, ?_⟩
    rw [check_errors_error_of_error _ _ _ herr, hr']
  simp only [process_json_line]
  split
  · rename_i hcond
    split
    · rename_i content heq
      split
      · rename_i hdep
        exact absurd ⟨hcond.1, hcond.2, by rw [heq, hdep]⟩ hskip
      · exact hres _ (by rw [appendContent_error, sessionStep_error, captureStep_error])
    · exact hres _ (by rw [sessionStep_error, captureStep_error])
  · exact hres _ (by rw [sessionStep_error, captureStep_error])

/-- C2 scenario event for the witness: an `error` object with a string
`message` field. -/
def errWithMsgEvent : Json :=
  .obj [("error", .obj [("message", .str "boom")])]

/-- Witness for `C2_amended` at a concrete error-bearing event. -/
theorem C2_amended_witness :
    (process_json_line errWithMsgEvent (initResult false) false).success = false ∧
    (process_json_line errWithMsgEvent (initResult false) false).error =
      some ("gemini error: " ++ "boom") := by
  have h := C2_amended errWithMsgEvent (initResult false) false (by decide) (by decide)
  exact ⟨h.1, h.2⟩

/-- C4 scenario event: an assistant message with an empty content
string. -/
def emptyContentEvent : Json :=
  .obj [("type", .str "message"), ("role", .str "assistant"), ("content", .str "")]

/-- C4 scenario state: a result whose assistant-text accumulator already
holds text. -/
def someTextResult : GeminiResult :=
  { initResult false with agent_messages := "hello" }

/-- C4 falls: an assistant message with an empty content string does NOT
leave the accumulator unchanged — the code never checks content
non-emptiness, so a separator newline is appended to the previously
non-empty accumulator. -/
theorem C4_counterexample :
    (process_json_line emptyContentEvent someTextResult false).agent_messages = "hello\n" ∧
    (process_json_line emptyContentEvent someTextResult false).agent_messages ≠
      someTextResult.agent_messages :=
  ⟨by decide, by decide⟩

/-- C4 (amended): an assistant-message event with an empty content string
is appended like any other content: when the accumulator is empty it
stays empty, but when it is non-empty a separator newline is appended to
it. -/
theorem C4_amended (ev : Json) (r : GeminiResult) (rall : Bool)
    (htype : itemTypeOf ev = TYPE_MESSAGE)
    (hrole : itemRoleOf ev = ROLE_ASSISTANT)
    (hcontent : jstr (ev.get KEY_CONTENT) = some "") :
    (process_json_line ev r rall).agent_messages =
      if strIsEmpty r.agent_messages then r.agent_messages
      else r.agent_messages ++ "\n" := by
  simp only [process_json_line, htype, hrole, hcontent, and_self, if_true]
  rw [if_neg (by decide)]
  rw [check_errors_agent_messages, appendContent_agent_messages,
    sessionStep_agent_messages, captureStep_agent_messages]
  split <;> simp [String.append_empty]

/-- Witness for `C4_amended` at the concrete C4 scenario event and a
non-empty accumulator. -/
theorem C4_amended_witness :
    (process_json_line emptyContentEvent someTextResult true).agent_messages =
      (if strIsEmpty someTextResult.agent_messages then someTextResult.agent_messages
       else someTextResult.agent_messages ++ "\n") :=
  C4_amended emptyContentEvent someTextResult true (by decide) (by decide) (by decide)

/-! ### C5: success is never reverted to true -/

theorem process_json_line_success_mono (ev : Json) (r : GeminiResult) (rall : Bool)
    (h : r.success = false) : (process_json_line ev r rall).success = false := by
  have hbase : (sessionStep ev (captureStep ev rall r)).success = false := by
    rw [sessionStep_success, captureStep_success]; exact h
  simp only [process_json_line]
  split
  · split
    · split
      · exact hbase
      · exact check_errors_success_mono _ _ _ (by rw [appendContent_success]; exact hbase)
    · exact check_errors_success_mono _ _ _ hbase
  · exact check_errors_success_mono _ _ _ hbase

theorem processStdoutLine_success_mono (rall : Bool) (st : DrainState)
    (line : String) (decoded : Option Json) (h : st.result.success = false) :
    (processStdoutLine rall st line decoded).result.success = false := by
  simp only [processStdoutLine]
  split
  · exact h
  · split
    · exact process_json_line_success_mono _ _ _ h
    · split
      · exact h
      · exact h

theorem drainStdout_success_mono (rall : Bool) (lines : List (String × Option Json)) :
    ∀ st : DrainState, st.result.success = false →
      (drainStdout rall st lines).result.success = false := by
  induction lines with
  | nil => exact fun st h => h
  | cons p rest ih =>
    exact fun st h => ih _ (processStdoutLine_success_mono _ _ _ _ h)

theorem finishRun_success_mono (st : DrainState) (exitS : Bool) (code : Option Int)
    (stderr : String) (h : st.result.success = false) :
    (finishRun st exitS code stderr).success = false := by
  simp only [finishRun]
  split
  · rfl
  · split
    · rfl
    · exact h

theorem enforce_success_mono (r : GeminiResult) (h : r.success = false) :
    (enforce_required_fields r).success = false := by
  simp only [enforce_required_fields]
  split
  · exact h
  · split
    · split <;> rfl
    · rfl

/-- C5: once the aggregated result's success flag is false, processing
any further sequence of stdout lines, any exit status, and the final
validation never set it back to true. -/
theorem C5_success_never_reverts (st : DrainState) (lines : List (String × Option Json))
    (rall exitS : Bool) (code : Option Int) (stderr : String)
    (h : st.result.success = false) :
    (enforce_required_fields
      (finishRun (drainStdout rall st lines) exitS code stderr)).success = false :=
  enforce_success_mono _
    (finishRun_success_mono _ _ _ _ (drainStdout_success_mono _ _ _ h))

/-- C5 scenario state: a drain state whose result is already failed. -/
def failedState : DrainState :=
  { result := { initResult false with success := false }
    non_json_lines := []
    valid_json_seen := true }

/-- Witness for `C5_success_never_reverts` at a concrete failed state. -/
theorem C5_witness :
    failedState.result.success = false ∧
    (enforce_required_fields
      (finishRun (drainStdout false failedState [("{}", some (Json.obj []))]) true none "")).success
      = false :=
  ⟨rfl, C5_success_never_reverts failedState [("{}", some (Json.obj []))] false true none "" rfl⟩

/-! ### C6: session identifier is last-write-wins -/

theorem process_json_line_session_id (ev : Json) (r : GeminiResult) (rall : Bool) :
    (process_json_line ev r rall).session_id = (extractSid ev).getD r.session_id := by
  have hbase : (sessionStep ev (captureStep ev rall r)).session_id =
      (extractSid ev).getD r.session_id := by
    rw [sessionStep_session_id, captureStep_session_id]
  simp only [process_json_line]
  split
  · split
    · split
      · exact hbase
      · rw [check_errors_session_id, appendContent_session_id]; exact hbase
    · rw [check_errors_session_id]; exact hbase
  · rw [check_errors_session_id]; exact hbase

/-- The Event Interpreter applied to a whole sequence of decoded events. -/
def applyEvents (return_all_messages : Bool) (r : GeminiResult)
    (events : List Json) : GeminiResult :=
  events.foldl (fun r ev => process_json_line ev r return_all_messages) r

theorem getLast?_cons_getD {α : Type} (a : α) (l : List α) :
    (a :: l).getLast? = some ((l.getLast?).getD a) := by
  induction l generalizing a with
  | nil => rfl
  | cons b t ih => rw [List.getLast?_cons_cons, ih b]; rfl

/-- C6: over any sequence of events, the aggregated session identifier is
the last non-empty session-identifier string observed, and stays at its
previous value when no event contributes one — events with an empty,
missing, or non-string `session_id` contribute nothing. -/
theorem C6_session_last_write_wins (events : List Json) (r : GeminiResult) (rall : Bool) :
    (applyEvents rall r events).session_id =
      ((events.filterMap extractSid).getLast?).getD r.session_id := by
  induction events generalizing r with
  | nil => rfl
  | cons ev rest ih =>
    have h1 : applyEvents rall r (ev :: rest) =
        applyEvents rall (process_json_line ev r rall) rest := rfl
    rw [h1, ih, List.filterMap_cons]
    cases hsid : extractSid ev with
    | none => rw [process_json_line_session_id, hsid]; rfl
    | some s =>
      rw [process_json_line_session_id, hsid, getLast?_cons_getD]
      cases hl : (rest.filterMap extractSid).getLast? <;> rfl

/-! ### C7: request validation rejects before spawn -/

/-- C7: a request whose `timeout_secs` is present and outside [1, 3600],
or whose task text is empty after trimming, is rejected by the validation
gate of `run` — the gate yields a validation error, never a spawn. -/
theorem C7_validation_rejects (opts : Options) (d : Nat)
    (h : strIsEmpty (strTrim opts.prompt) = true ∨
      ∃ t, opts.timeout_secs = some t ∧ (t < MIN_TIMEOUT_SECS ∨ MAX_TIMEOUT_SECS < t)) :
    run_gate opts d = RunGate.promptInvalid ∨ run_gate opts d = RunGate.timeoutInvalid := by
  simp only [run_gate]
  rcases h with h | ⟨t, ht, hrange⟩
  · rw [if_pos h]
    exact Or.inl rfl
  · cases hp : strIsEmpty (strTrim opts.prompt) with
    | true => simp
    | false =>
      have hcond : (!(MIN_TIMEOUT_SECS ≤ t && t ≤ MAX_TIMEOUT_SECS)) = true := by
        simp only [Bool.not_eq_true', Bool.and_eq_false_iff, decide_eq_false_iff_not,
          Nat.not_le]
        rcases hrange with h1 | h1
        · exact Or.inl h1
        · exact Or.inr h1
      simp [ht, hcond]

/-- C7 scenario: timeout 0. -/
def optsTimeoutZero : Options :=
  { prompt := "hi", sandbox := false, session_id := none,
    return_all_messages := false, model := none, timeout_secs := some 0 }

/-- C7 scenario: timeout 3601. -/
def optsTimeoutOver : Options :=
  { optsTimeoutZero with timeout_secs := some 3601 }

/-- C7 scenario: whitespace-only prompt. -/
def optsBlankPrompt : Options :=
  { optsTimeoutZero with prompt := " \t ", timeout_secs := none }

/-- Witness for `C7_validation_rejects` at the boundary timeouts 0 and
3601 and at a whitespace-only prompt. -/
theorem C7_witness :
    (run_gate optsTimeoutZero 600 = RunGate.promptInvalid ∨
      run_gate optsTimeoutZero 600 = RunGate.timeoutInvalid) ∧
    (run_gate optsTimeoutOver 600 = RunGate.promptInvalid ∨
      run_gate optsTimeoutOver 600 = RunGate.timeoutInvalid) ∧
    (run_gate optsBlankPrompt 600 = RunGate.promptInvalid ∨
      run_gate optsBlankPrompt 600 = RunGate.timeoutInvalid) :=
  ⟨C7_validation_rejects optsTimeoutZero 600 (Or.inr ⟨0, rfl, by decide⟩),
   C7_validation_rejects optsTimeoutOver 600 (Or.inr ⟨3601, rfl, by decide⟩),
   C7_validation_rejects optsBlankPrompt 600 (Or.inl (by decide))⟩

/-! ### C8: the Result Validator -/

/-- The failure condition of the Result Validator as the claim states it:
empty session identifier, or no assistant text without full capture, or
no assistant text and no captured events with full capture. -/
def missing_required (r : GeminiResult) : Bool :=
  strIsEmpty r.session_id
  || (!r.return_all_messages && strIsEmpty r.agent_messages)
  || (r.return_all_messages && strIsEmpty r.agent_messages && r.all_messages.isEmpty)

theorem validation_errors_empty_iff (r : GeminiResult) :
    ((validation_errors r).isEmpty = true) ↔ missing_required r = false := by
  cases h1 : strIsEmpty r.session_id <;> cases h2 : r.return_all_messages <;>
    cases h3 : strIsEmpty r.agent_messages <;> cases h4 : r.all_messages.isEmpty <;>
      simp [validation_errors, missing_required, h1, h2, h3, h4]

theorem enforce_session_id (r : GeminiResult) :
    (enforce_required_fields r).session_id = r.session_id := by
  simp only [enforce_required_fields]
  split
  · rfl
  · split
    · split <;> rfl
    · rfl

theorem enforce_agent_messages (r : GeminiResult) :
    (enforce_required_fields r).agent_messages = r.agent_messages := by
  simp only [enforce_required_fields]
  split
  · rfl
  · split
    · split <;> rfl
    · rfl

theorem enforce_all_messages (r : GeminiResult) :
    (enforce_required_fields r).all_messages = r.all_messages := by
  simp only [enforce_required_fields]
  split
  · rfl
  · split
    · split <;> rfl
    · rfl

/-- C8: the Result Validator forces failure and appends error text
exactly when the session identifier is empty, or full capture was not
requested and the assistant text is empty, or full capture was requested
and both the assistant text and the captured events are empty; the
validation errors are newline-joined and appended after any pre-existing
non-empty error text; and the validator never modifies the session
identifier, assistant text, or captured-event list. -/
theorem C8_validator (r : GeminiResult) :
    (enforce_required_fields r).session_id = r.session_id ∧
    (enforce_required_fields r).agent_messages = r.agent_messages ∧
    (enforce_required_fields r).all_messages = r.all_messages ∧
    (missing_required r = false → enforce_required_fields r = r) ∧
    (missing_required r = true →
      (enforce_required_fields r).success = false ∧
      validation_errors r ≠ [] ∧
      (enforce_required_fields r).error = some
        ((match r.error with
          | some prev => if strIsEmpty prev then "" else prev ++ "\n"
          | none => "") ++ String.intercalate "\n" (validation_errors r))) := by
  refine ⟨enforce_session_id r, enforce_agent_messages r, enforce_all_messages r, ?_, ?_⟩
  · intro hm
    have he : (validation_errors r).isEmpty = true := (validation_errors_empty_iff r).mpr hm
    simp [enforce_required_fields, he]
  · intro hm
    have he : (validation_errors r).isEmpty = false := by
      cases h : (validation_errors r).isEmpty
      · rfl
      · rw [(validation_errors_empty_iff r).mp h] at hm; cases hm
    have hne : validation_errors r ≠ [] := by
      intro hnil
      rw [hnil] at he
      cases he
    refine ⟨?_, hne, ?_⟩
    · simp only [enforce_required_fields, he, Bool.false_eq_true, if_false]
      split
      · split <;> rfl
      · rfl
    · simp only [enforce_required_fields, he, Bool.false_eq_true, if_false]
      split
      · rename_i prev hprev
        split
        · rename_i hpe
          simp_all
        · rename_i hpe
          simp_all
      · rename_i hnone
        simp_all

/-- C8 scenario: a successful-looking result that never saw a session
identifier. -/
def sidMissingResult : GeminiResult :=
  { success := true, session_id := "", agent_messages := "msg",
    all_messages := [], return_all_messages := false, error := none }

/-- Witness for `C8_validator` at a concrete result missing its session
identifier. -/
theorem C8_witness :
    (enforce_required_fields sidMissingResult).success = false ∧
    (enforce_required_fields sidMissingResult).session_id = sidMissingResult.session_id := by
  have h := C8_validator sidMissingResult
  exact ⟨(h.2.2.2.2 (by decide)).1, h.1⟩

/-! ### C3: clean exit without valid JSON -/

/-- C3 falls in the no-stdout-lines case: a run with a clean exit and no
stdout lines at all is marked failed, but its error message comes from
the Result Validator and does not cite the absence of valid structured
output ("No valid JSON"), contrary to the claim. -/
theorem C3_counterexample :
    (runWithChildModel [] false true none "").success = false ∧
    containsSub (((runWithChildModel [] false true none "").error).getD "")
      "No valid JSON" = false :=
  ⟨by decide, by decide⟩

theorem noJson_error_ne_empty (s : String) :
    ("No valid JSON output received from gemini CLI.\nOutput: " ++ s : String) ≠ "" := by
  intro h
  have h2 := congrArg String.length h
  simp [String.length_append] at h2
  exact absurd h2.1 (by decide)

/-- C3 (amended): on a clean exit with no line ever decoded as valid JSON
and at least one non-blank (hence non-JSON) stdout line captured, the
aggregated result is failed and its error message starts with the
"No valid JSON output received" citation plus the raw non-JSON lines;
with no stdout lines at all the result is still failed, but through the
Result Validator without that citation (see the counterexample). -/
theorem C3_amended (lines : List (String × Option Json)) (rall : Bool)
    (code : Option Int) (stderr : String)
    (hjson : (drainStdout rall (initDrain rall) lines).valid_json_seen = false)
    (hlines : (drainStdout rall (initDrain rall) lines).non_json_lines ≠ []) :
    (runWithChildModel lines rall true code stderr).success = false ∧
    ∃ suffix,
      (runWithChildModel lines rall true code stderr).error =
        some (("No valid JSON output received from gemini CLI.\nOutput: "
          ++ String.intercalate "\n"
            (drainStdout rall (initDrain rall) lines).non_json_lines) ++ suffix) := by
  set st := drainStdout rall (initDrain rall) lines with hst
  set cit : String := "No valid JSON output received from gemini CLI.\nOutput: "
    ++ String.intercalate "\n" st.non_json_lines with hcit
  have hie : st.non_json_lines.isEmpty = false := by
    rcases hnl : st.non_json_lines with _ | ⟨a, l⟩
    · exact absurd hnl hlines
    · rfl
  have hfin : finishRun st true code stderr =
      { st.result with success := false, error := some cit } := by
    simp [finishRun, hie, hjson]
  have hrun : runWithChildModel lines rall true code stderr =
      enforce_required_fields { st.result with success := false, error := some cit } := by
    rw [runWithChildModel, ← hst, hfin]
  have hcitne : strIsEmpty cit = false := by
    simp only [strIsEmpty, decide_eq_false_iff_not]
    exact noJson_error_ne_empty _
  constructor
  · rw [hrun]
    exact enforce_success_mono _ rfl
  · rw [hrun]
    cases he : (validation_errors { st.result with success := false, error := some cit }).isEmpty
    · refine ⟨"\n" ++ String.intercalate "\n"
        (validation_errors { st.result with success := false, error := some cit }), ?_⟩
      simp only [enforce_required_fields, he, Bool.false_eq_true, if_false]
      simp [hcitne, String.append_assoc]
    · refine ⟨"", ?_⟩
      simp [enforce_required_fields, he, String.append_empty]

/-- Witness for `C3_amended` at a single non-JSON stdout line. -/
theorem C3_amended_witness :
    (runWithChildModel [("garbage", none)] false true none "").success = false ∧
    ∃ suffix,
      (runWithChildModel [("garbage", none)] false true none "").error =
        some (("No valid JSON output received from gemini CLI.\nOutput: "
          ++ String.intercalate "\n"
            (drainStdout false (initDrain false) [("garbage", none)]).non_json_lines)
          ++ suffix) :=
  C3_amended [("garbage", none)] false none "" (by decide) (by decide)

/-! ### C9: the stderr byte-cap slice can panic -/

theorem ulen_nil : ulen [] = 0 := rfl

theorem ulen_append (a b : List Char) : ulen (a ++ b) = ulen a + ulen b := by
  simp [ulen]

theorem ulen_cons (c : Char) (cs : List Char) : ulen (c :: cs) = lenUtf8 c + ulen cs := by
  simp [ulen]

theorem ulen_replicate_a (n : Nat) : ulen (List.replicate n 'a') = n := by
  induction n with
  | zero => rfl
  | succ k ih =>
    rw [List.replicate_succ, ulen_cons, ih, show lenUtf8 'a' = 1 from rfl]
    omega

theorem drainStderr_cons (st : StderrBuf) (l : List Char) (ls : List (List Char)) :
    drainStderr st (l :: ls) =
      match stderrStep st l with
      | some st' => drainStderr st' ls
      | none => none := rfl

theorem stderrStep_fits (st : StderrBuf) (line : List Char) (o : Nat)
    (ho : ulen st.out = o) (hcap : o < MAX_STDERR_BYTES) (htr : st.truncated = false)
    (hemp : st.out.isEmpty = true)
    (hfit : ulen line ≤ MAX_STDERR_BYTES - o) :
    stderrStep st line = some { out := st.out ++ line, truncated := false } := by
  simp only [stderrStep]
  rw [if_pos (by simp [ho, hcap, htr])]
  simp only [hemp, if_true, ite_true]
  rw [ho, if_pos hfit, htr]

theorem stderrStep_panics (st : StderrBuf) (c : Char) (rest : List Char) (o : Nat)
    (ho : ulen st.out = o) (hcap : o < MAX_STDERR_BYTES) (htr : st.truncated = false)
    (hemp : st.out.isEmpty = false)
    (hbig : ¬ ulen (c :: rest) ≤ MAX_STDERR_BYTES - (o + 1))
    (hrem : ∃ m, MAX_STDERR_BYTES - (o + 1) = m + 1 ∧ ¬ lenUtf8 c ≤ m + 1) :
    stderrStep st (c :: rest) = none := by
  simp only [stderrStep]
  rw [if_pos (by simp [ho, hcap, htr])]
  simp only [hemp, Bool.false_eq_true, if_false, ite_false]
  rw [ulen_append, ho, show ulen ['\n'] = 1 from rfl]
  rw [if_neg hbig]
  obtain ⟨m, hm, hc⟩ := hrem
  rw [hm]
  have ht : takeBytes (c :: rest) (m + 1) = none := by
    simp only [takeBytes]
    rw [if_neg hc]
  rw [ht]

/-- C9 falls (code bug): the stderr-capture step CAN panic.  After a
first stderr line of 99,998 one-byte characters, a second line holding
the two-byte character 'é' makes the code slice that line at byte
index 1 — inside the character — which is a Rust panic ("byte index is
not a char boundary"), modelled here as `none`. -/
theorem C9_stderr_can_panic :
    drainStderr initStderr [List.replicate 99998 'a', ['é']] = none := by
  have hu : ulen (List.replicate 99998 'a') = 99998 := ulen_replicate_a 99998
  have hne : (List.replicate 99998 'a').isEmpty = false := by
    rw [show (99998 : Nat) = 99997 + 1 from by norm_num, List.replicate_succ]
    rfl
  have h1 : stderrStep initStderr (List.replicate 99998 'a') =
      some { out := List.replicate 99998 'a', truncated := false } := by
    have hfit := stderrStep_fits initStderr (List.replicate 99998 'a') 0
      rfl (by decide) rfl rfl (by rw [hu]; decide)
    rw [hfit]
    rw [show (initStderr.out ++ List.replicate 99998 'a') = List.replicate 99998 'a' from
      List.nil_append _]
  have h2 : stderrStep { out := List.replicate 99998 'a', truncated := false }
      ['é'] = none :=
    stderrStep_panics _ _ _ 99998 hu (by decide) rfl hne (by decide) ⟨0, by decide, by decide⟩
  rw [drainStderr_cons, h1]
  show drainStderr { out := List.replicate 99998 'a', truncated := false } [['é']] = none
  rw [drainStderr_cons, h2]

/-! ### C10: empty SESSION_ID behaves as absent -/

/-- C10: a request whose SESSION_ID parameter is the empty string builds
exactly the same `Options` as one with SESSION_ID absent, and the command
gains no `--resume` argument pair. -/
theorem C10_empty_session_id (args : GeminiArgs) (h : args.session_id = some "") :
    server_build_opts args = server_build_opts { args with session_id := none } ∧
    resumeArgs (server_build_opts args) = [] := by
  have hfil : filterNonEmpty args.session_id = none := by
    rw [h]
    rfl
  constructor
  · simp only [server_build_opts]
    rw [hfil]
    rfl
  · simp only [resumeArgs, server_build_opts]
    rw [hfil]

/-- C10 scenario: a request with SESSION_ID present but empty. -/
def emptySidArgs : GeminiArgs :=
  { prompt := "do it", sandbox := false, session_id := some "",
    return_all_messages := false, model := none, timeout_secs := none }

/-- Witness for `C10_empty_session_id` at a concrete request. -/
theorem C10_witness :
    server_build_opts emptySidArgs = server_build_opts { emptySidArgs with session_id := none } ∧
    resumeArgs (server_build_opts emptySidArgs) = [] :=
  C10_empty_session_id emptySidArgs rfl

end GeminiMcp
